import Mathlib

/-!
Shallow embedding of the DistributedChatApp1 repository (Python sources) in
Lean 4, for checking the natural-language specification against the code.

The embedding covers:
* `resources/utils.py` — `generate_server_id` (SHA-256 based PeerId);
* `FaultTolerance.py` — `ReliableMessage` checksums, the reliable-message
  handler `_handle_reliable_message`, the `PartitionDetector.probe_nodes`
  round, and the `_message_timeout_loop` retry scan;
* `LeaderElection.py` — the bully-election state machine
  (`_start_election`, `_send_election_messages`, `_become_leader`,
  `_handle_coordinator_message`);
* `Client.py` — `attempt_reconnection`.

Machine integers are modelled as `Nat` with explicit `% 2 ^ 32` where the
Python code relies on fixed-width behaviour (it does not: Python ints are
unbounded, but SHA-256 itself works on 32-bit words).  Strings are modelled
as their UTF-8 byte lists (`List Nat`, each element < 256).  Wall-clock
times are modelled as `Nat` seconds.
-/

namespace Chat

/-! ## SHA-256 (as used by `hashlib.sha256` in the sources)

A byte is a `Nat < 256`; a word is a `Nat < 2 ^ 32`.  The digest is the
standard FIPS 180-4 SHA-256 of the input byte list, returned as the list of
its 32 bytes.  `hexDigits` renders a byte list the way `.hexdigest()` does,
except that hex characters are modelled by their numeric values 0..15. -/

/-- Truncate to a 32-bit word. -/
def w32 (n : Nat) : Nat := n % 4294967296

/-- Right rotation of a 32-bit word by `n` bits. -/
def rotr (n x : Nat) : Nat := w32 ((x >>> n) ||| (x <<< (32 - n)))

/-- SHA-256 small sigma 0. -/
def ssig0 (x : Nat) : Nat := (rotr 7 x) ^^^ (rotr 18 x) ^^^ (x >>> 3)

/-- SHA-256 small sigma 1. -/
def ssig1 (x : Nat) : Nat := (rotr 17 x) ^^^ (rotr 19 x) ^^^ (x >>> 10)

/-- SHA-256 big sigma 0. -/
def bsig0 (x : Nat) : Nat := (rotr 2 x) ^^^ (rotr 13 x) ^^^ (rotr 22 x)

/-- SHA-256 big sigma 1. -/
def bsig1 (x : Nat) : Nat := (rotr 6 x) ^^^ (rotr 11 x) ^^^ (rotr 25 x)

/-- SHA-256 round constants (decimal, four per row). -/
def kConstants : List Nat :=
  [1116352408, 1899447441, 3049323471, 3921009573,
   961987163, 1508970993, 2453635748, 2870763221,
   3624381080, 310598401, 607225278, 1426881987,
   1925078388, 2162078206, 2614888103, 3248222580,
   3835390401, 4022224774, 264347078, 604807628,
   770255983, 1249150122, 1555081692, 1996064986,
   2554220882, 2821834349, 2952996808, 3210313671,
   3336571891, 3584528711, 113926993, 338241895,
   666307205, 773529912, 1294757372, 1396182291,
   1695183700, 1986661051, 2177026350, 2456956037,
   2730485921, 2820302411, 3259730800, 3345764771,
   3516065817, 3600352804, 4094571909, 275423344,
   430227734, 506948616, 659060556, 883997877,
   958139571, 1322822218, 1537002063, 1747873779,
   1955562222, 2024104815, 2227730452, 2361852424,
   2428436474, 2756734187, 3204031479, 3329325298]

/-- The eight 32-bit state words of SHA-256. -/
structure H8 where
  a : Nat
  b : Nat
  c : Nat
  d : Nat
  e : Nat
  f : Nat
  g : Nat
  h : Nat
deriving Repr, DecidableEq

/-- SHA-256 initial hash value (decimal). -/
def initH : H8 :=
  ⟨1779033703, 3144134277, 1013904242, 2773480762,
   1359893119, 2600822924, 528734635, 1541459225⟩

/-- One compression round: consumes a pair (round constant, schedule word). -/
def compressStep (st : H8) (kw : Nat × Nat) : H8 :=
  let ch := (st.e &&& st.f) ^^^ ((st.e ^^^ 4294967295) &&& st.g)
  let temp1 := w32 (st.h + bsig1 st.e + ch + kw.1 + kw.2)
  let maj := (st.a &&& st.b) ^^^ (st.a &&& st.c) ^^^ (st.b &&& st.c)
  let temp2 := w32 (bsig0 st.a + maj)
  ⟨w32 (temp1 + temp2), st.a, st.b, st.c, w32 (st.d + temp1), st.e, st.f, st.g⟩

/-- Extend a 16-word block to the 64-word message schedule (appends `n` words). -/
def extendLoop : Nat → List Nat → List Nat
  | 0, ws => ws
  | n + 1, ws =>
      let i := ws.length
      let x := w32 (ws.getD (i - 16) 0 + ssig0 (ws.getD (i - 15) 0) +
                    ws.getD (i - 7) 0 + ssig1 (ws.getD (i - 2) 0))
      extendLoop n (ws ++ [x])

/-- 64-word message schedule of a 16-word block. -/
def extendSchedule (block : List Nat) : List Nat := extendLoop 48 block

/-- Process one 16-word block. -/
def processBlock (st : H8) (block : List Nat) : H8 :=
  let ws := extendSchedule block
  let c := (kConstants.zip ws).foldl compressStep st
  ⟨w32 (st.a + c.a), w32 (st.b + c.b), w32 (st.c + c.c), w32 (st.d + c.d),
   w32 (st.e + c.e), w32 (st.f + c.f), w32 (st.g + c.g), w32 (st.h + c.h)⟩

/-- Big-endian bytes of a 32-bit word. -/
def wordToBytes4 (w : Nat) : List Nat :=
  [(w / 16777216) % 256, (w / 65536) % 256, (w / 256) % 256, w % 256]

/-- Big-endian 8-byte encoding of the 64-bit message length. -/
def lenBytes8 (n : Nat) : List Nat :=
  [(n / 72057594037927936) % 256, (n / 281474976710656) % 256,
   (n / 1099511627776) % 256, (n / 4294967296) % 256,
   (n / 16777216) % 256, (n / 65536) % 256, (n / 256) % 256, n % 256]

/-- SHA-256 padding: append 0x80, zero bytes to 56 mod 64, then the bit length. -/
def shaPad (msg : List Nat) : List Nat :=
  let l := msg.length
  msg ++ [128] ++ List.replicate ((119 - l % 64) % 64) 0 ++ lenBytes8 (l * 8)

/-- Group bytes into big-endian 32-bit words (4 bytes each). -/
def toWordsBE : List Nat → List Nat
  | b0 :: b1 :: b2 :: b3 :: rest => (((b0 * 256 + b1) * 256 + b2) * 256 + b3) :: toWordsBE rest
  | _ => []

/-- Split a word list into 16-word blocks (fuel-driven; the fuel `n` bounds
the number of blocks and `ws.length` always suffices). -/
def chunk16Fuel : Nat → List Nat → List (List Nat)
  | 0, _ => []
  | _ + 1, [] => []
  | n + 1, w :: ws => (w :: ws).take 16 :: chunk16Fuel n ((w :: ws).drop 16)

/-- Split a word list into 16-word blocks. -/
def chunk16 (ws : List Nat) : List (List Nat) := chunk16Fuel ws.length ws

/-- The 32 digest bytes of a final state. -/
def digestBytes (st : H8) : List Nat :=
  wordToBytes4 st.a ++ wordToBytes4 st.b ++ wordToBytes4 st.c ++ wordToBytes4 st.d ++
  wordToBytes4 st.e ++ wordToBytes4 st.f ++ wordToBytes4 st.g ++ wordToBytes4 st.h

/-- SHA-256 of a byte list, as its 32 digest bytes. -/
def sha256 (msg : List Nat) : List Nat :=
  digestBytes ((chunk16 (toWordsBE (shaPad msg))).foldl processBlock initH)

/-- Hex digit values (0..15) of a byte list, the way `.hexdigest()` renders
a digest (two hex characters per byte, each modelled by its value). -/
def hexDigits (bytes : List Nat) : List Nat := bytes.flatMap (fun b => [b / 16, b % 16])

/-- Value of a hex-digit list, the way Python's `int(s, 16)` parses it. -/
def hexVal (l : List Nat) : Nat := l.foldl (fun acc d => 16 * acc + d) 0

/-- Big-endian value of a byte list. -/
def beBytes (l : List Nat) : Nat := l.foldl (fun acc b => 256 * acc + b) 0

/-! ## `resources/utils.py` — `generate_server_id`

```python
def generate_server_id(server_ip: str, hostname: str = None) -> int:
    if hostname is None:
        hostname = socket.gethostname()
    id_string = f"{server_ip}:{hostname}"
    hash_value = hashlib.sha256(id_string.encode()).hexdigest()
    return int(hash_value[:8], 16) % 10000
```

Strings are modelled as UTF-8 byte lists; 58 is the byte of the colon that
the f-string inserts between the IP and the hostname.  `hexdigest()[:8]` is
the `.take 8` of the hex-digit rendering of the digest; `int(·, 16)` is
`hexVal`. -/

/-- `generate_server_id` of `resources/utils.py` (explicit-hostname path). -/
def generate_server_id (server_ip hostname : List Nat) : Nat :=
  let idString := server_ip ++ [58] ++ hostname
  let hashValue := hexDigits (sha256 idString)
  hexVal (hashValue.take 8) % 10000

/-- The spec's formula for PeerId: the integer value of the first 4 bytes of
`SHA-256(ip ++ ":" ++ hostname)`, reduced modulo 10 000 (stated from the
spec's words, for comparison with `generate_server_id`). -/
def specPeerId (server_ip hostname : List Nat) : Nat :=
  beBytes ((sha256 (server_ip ++ [58] ++ hostname)).take 4) % 10000

/-! ## `FaultTolerance.py` — `ReliableMessage` and `_handle_reliable_message`

```python
class ReliableMessage:
    def _calculate_checksum(self) -> str:
        data = f"{self.sender_id}{self.msg_type}{str(self.payload)}{self.timestamp}"
        return hashlib.sha256(data.encode()).hexdigest()[:16]
    def verify_integrity(self) -> bool:
        expected_checksum = self._calculate_checksum()
        return self.checksum == expected_checksum
```

A message's string fields are modelled as UTF-8 byte lists.  The Python
object carries one float `timestamp` that is both rendered into the
checksum input (via the f-string) and compared arithmetically in the
timeout loop; here `timestampStr` is its rendered byte string (used for the
checksum) and `timestamp` its value in whole seconds (used by the timeout
loop).  `msg_id` (a UUID string) only ever participates in equality tests
and set membership, so it is modelled as a `Nat`.  The checksum — 16 hex
characters — is the 16-element list of their hex-digit values. -/

/-- A `ReliableMessage` of `FaultTolerance.py`. -/
structure ReliableMessage where
  msgId : Nat
  senderId : List Nat
  msgType : List Nat
  payloadStr : List Nat
  timestampStr : List Nat
  timestamp : Nat
  sequenceNum : Nat
  checksum : List Nat
  retryCount : Nat
  maxRetries : Nat
deriving Repr, DecidableEq

/-- `ReliableMessage._calculate_checksum`: SHA-256 of the concatenation of
the rendered fields, truncated to the first 16 hex digits. -/
def calculate_checksum (m : ReliableMessage) : List Nat :=
  (hexDigits (sha256 (m.senderId ++ m.msgType ++ m.payloadStr ++ m.timestampStr))).take 16

/-- `ReliableMessage.verify_integrity`. -/
def verify_integrity (m : ReliableMessage) : Bool :=
  m.checksum = calculate_checksum m

/-- The receiver-side state touched by `_handle_reliable_message`:
the `received_messages` set (delivered msg_ids, modelled as a duplicate-free
list), the BYZANTINE fault counter, and the list of msg_ids for which an
ACK has been sent (each `_send_ack` call appends one). -/
structure RMState where
  receivedMessages : List Nat
  byzantineCount : Nat
  acksSent : List Nat
deriving Repr, DecidableEq

/-- `FaultToleranceManager._handle_reliable_message` (lines 352-387).
Returns the new state and the upstream delivery (`some m` exactly when the
Python function returns the `{'type': 'reliable_message', ...}` dict to its
caller; `none` for the `return None` paths).

```python
if message.msg_id in self.received_messages:
    self._send_ack(message.msg_id, sender_addr); return None
if not message.verify_integrity():
    self.fault_stats[FaultType.BYZANTINE] += 1; return None
self.received_messages.add(message.msg_id)
self._send_ack(message.msg_id, sender_addr)
return {...}
``` -/
def handle_reliable_message (st : RMState) (m : ReliableMessage) :
    RMState × Option ReliableMessage :=
  if m.msgId ∈ st.receivedMessages then
    ({ st with acksSent := st.acksSent ++ [m.msgId] }, none)
  else if ¬ verify_integrity m then
    ({ st with byzantineCount := st.byzantineCount + 1 }, none)
  else
    ({ st with receivedMessages := st.receivedMessages ++ [m.msgId],
               acksSent := st.acksSent ++ [m.msgId] }, some m)

/-! ## `FaultTolerance.py` — `PartitionDetector.probe_nodes`

```python
def probe_nodes(self) -> bool:
    self.reachable_nodes.clear()
    current_time = time.time()
    if not self.partition_detection_enabled:
        if current_time - self.startup_time < self.startup_grace_period:
            self.in_partition = False
            return True
        else:
            self.partition_detection_enabled = True
    total_nodes = len(self.known_nodes)
    if total_nodes == 0:
        self.in_partition = False
        return True
    for node_id in self.known_nodes:
        if self._probe_node(node_id):
            self.reachable_nodes.add(node_id)
    reachable_nodes = len(self.reachable_nodes)
    partition_threshold = total_nodes * 0.5
    was_in_partition = self.in_partition
    self.in_partition = reachable_nodes < partition_threshold
    if total_nodes > 1:
        if self.in_partition and not was_in_partition:
            self.partition_start_time = time.time()
        elif not self.in_partition and was_in_partition:
            self.partition_start_time = None
    return not self.in_partition
```

Node ids are modelled as `Nat`; the `known_nodes` Python set as a
(duplicate-free) list; times as `Nat` seconds.  The network outcome of
`_probe_node` is abstracted by an oracle `reach : Nat → Bool` (true iff the
probe of that node gets a matching response within its timeout).  The
float comparison `reachable < total * 0.5` is embedded as
`2 * reachable < total`, which is exact for these integer magnitudes. -/

/-- The state of `PartitionDetector` relevant to `probe_nodes`. -/
structure PartitionDetector where
  knownNodes : List Nat
  reachableNodes : List Nat
  inPartition : Bool
  detectionEnabled : Bool
  startupTime : Nat
  partitionStartTime : Option Nat
deriving Repr, DecidableEq

/-- The startup grace period (`startup_grace_period = 30`). -/
def startupGracePeriod : Nat := 30

/-- `PartitionDetector.probe_nodes`, as a function of the current time and
the probe oracle.  Returns the updated detector and the boolean result. -/
def probe_nodes (st : PartitionDetector) (now : Nat) (reach : Nat → Bool) :
    PartitionDetector × Bool :=
  let st := { st with reachableNodes := [] }
  if ¬ st.detectionEnabled ∧ now - st.startupTime < startupGracePeriod then
    ({ st with inPartition := false }, true)
  else
    let st := { st with detectionEnabled := true }
    let totalNodes := st.knownNodes.length
    if totalNodes = 0 then
      ({ st with inPartition := false }, true)
    else
      let st := { st with reachableNodes := st.knownNodes.filter reach }
      let reachableCount := st.reachableNodes.length
      let wasInPartition := st.inPartition
      let newInPartition : Bool := 2 * reachableCount < totalNodes
      let newStart : Option Nat :=
        if 1 < totalNodes then
          if newInPartition ∧ ¬ wasInPartition then some now
          else if ¬ newInPartition ∧ wasInPartition then none
          else st.partitionStartTime
        else st.partitionStartTime
      ({ st with inPartition := newInPartition, partitionStartTime := newStart },
       ! newInPartition)

/-- `ReliableMessage.__init__`: a fresh message has sequence number 0,
retry count 0, max retries 3, and the checksum computed from the other
fields. -/
def mkReliableMessage (msgId : Nat) (senderId msgType payloadStr timestampStr : List Nat)
    (timestamp : Nat) : ReliableMessage :=
  let base : ReliableMessage :=
    ⟨msgId, senderId, msgType, payloadStr, timestampStr, timestamp, 0, [], 0, 3⟩
  { base with checksum := calculate_checksum base }

/-- A concrete well-formed message used to evaluate the handler: sender "A",
type "B", payload "C", rendered timestamp "1.0". -/
def mIntact : ReliableMessage := mkReliableMessage 1 [65] [66] [67] [49, 46, 48] 1

/-- The same envelope with a corrupted checksum field. -/
def mCorrupt : ReliableMessage := { mIntact with msgId := 2, checksum := [0] }

/-! ## `FaultTolerance.py` — `_message_timeout_loop`

```python
for msg_id, message in list(self.pending_messages.items()):
    if current_time - message.timestamp > self.message_timeout:
        if message.retry_count < message.max_retries:
            message.retry_count += 1
            message.timestamp = current_time
            self._transmit_message(message)
        else:
            timed_out_messages.append(msg_id)
            self.fault_stats[FaultType.OMISSION] += 1
for msg_id in timed_out_messages:
    del self.pending_messages[msg_id]
```

One scan of the pending map is modelled as a function over the list of
pending messages: each message is either kept (possibly retransmitted with
its retry counter bumped and its timestamp refreshed) or dropped while the
OMISSION counter gains one. -/

/-- `message_timeout = 5` seconds. -/
def messageTimeout : Nat := 5

/-- The fate of one pending message in a scan at time `now`: `(some m', k)`
keeps `m'` in the pending map, `(none, k)` drops it; `k` is the OMISSION
increment. -/
def stepMessage (now : Nat) (m : ReliableMessage) : Option ReliableMessage × Nat :=
  if messageTimeout < now - m.timestamp then
    if m.retryCount < m.maxRetries then
      (some { m with retryCount := m.retryCount + 1, timestamp := now }, 0)
    else
      (none, 1)
  else
    (some m, 0)

/-- One scan of `_message_timeout_loop` over the pending messages: the new
pending list and the total OMISSION increment. -/
def message_timeout_scan (now : Nat) (pending : List ReliableMessage) :
    List ReliableMessage × Nat :=
  (pending.filterMap (fun m => (stepMessage now m).1),
   (pending.map (fun m => (stepMessage now m).2)).sum)

/-- A pending message that still has retries left (sent at time 0). -/
def mPendFresh : ReliableMessage := mkReliableMessage 10 [65] [66] [] [48] 0

/-- A pending message whose retries are exhausted. -/
def mPendSpent : ReliableMessage := { mkReliableMessage 11 [65] [66] [] [48] 0 with retryCount := 3 }

/-! ## `LeaderElection.py` — the bully-election state machine

`NodeIdentifier` compares by `process_id` (its `__lt__`: "higher process_id
has higher priority in Bully Algorithm").  The election methods:

```python
def _start_election(self):
    if self.election_in_progress: return
    self.election_in_progress = True
    self.state = NodeState.CANDIDATE
    higher_nodes = self.group_view.get_higher_nodes(self.node_id)
    if not higher_nodes:
        self._become_leader()
    else:
        responses = self._send_election_messages(higher_nodes)
        if not responses:
            self._become_leader()
        else:
            self._wait_for_coordinator()
    self.election_in_progress = False

def _send_election_messages(self, target_nodes) -> int:
    responses = 0
    message = {...ELECTION...}
    for node in target_nodes:
        self.socket.sendto(json.dumps(message).encode(), self.multicast_group)
    time.sleep(2.0)
    return responses          # never incremented

def _become_leader(self):
    self.state = NodeState.LEADER
    self.current_leader = self.node_id
    message = {...COORDINATOR...}
    self.socket.sendto(...)
```

Network sends are modelled as an `outbox` of structured messages (the JSON
wire encoding and the timestamps are not modelled); `_wait_for_coordinator`
only sleeps and possibly re-triggers an election in another thread, so it
is the identity on the election state.  `_election_monitor` drops datagrams
whose source IP equals the node's own IP before dispatch; that guard is
part of `receiveCoordinator`. -/

/-- `NodeIdentifier` (ip, port, process id). -/
structure NodeIdentifier where
  ip : String
  port : Nat
  processId : Nat
deriving Repr, DecidableEq

/-- `NodeIdentifier.__lt__`: priority order is by `process_id`. -/
def ltNode (x y : NodeIdentifier) : Bool := x.processId < y.processId

/-- `NodeState` of `LeaderElection.py`. -/
inductive NodeState where
  | follower
  | candidate
  | leader
deriving Repr, DecidableEq

/-- Election wire messages (structured; sender/leader fields as parsed). -/
inductive ElectionMsg where
  | election (sender : NodeIdentifier)
  | answer (sender : NodeIdentifier)
  | coordinator (leader : NodeIdentifier)
deriving Repr, DecidableEq

/-- The election-relevant state of one `LeaderElection` object, plus an
outbox collecting every message the node sends. -/
structure LEState where
  nodeId : NodeIdentifier
  state : NodeState
  currentLeader : Option NodeIdentifier
  groupView : List NodeIdentifier
  electionInProgress : Bool
  outbox : List ElectionMsg
deriving Repr, DecidableEq

/-- `GroupView.get_higher_nodes`: members with priority above the node's. -/
def get_higher_nodes (st : LEState) : List NodeIdentifier :=
  st.groupView.filter (fun nid => ltNode st.nodeId nid)

/-- `_send_election_messages`: multicasts one ELECTION message per target
and returns the response count — the local `responses` is initialised to 0,
never incremented (ANSWER messages are consumed by
`_handle_election_answer`, which only logs), and returned as is. -/
def send_election_messages (st : LEState) (targets : List NodeIdentifier) :
    LEState × Nat :=
  ({ st with outbox := st.outbox ++ targets.map (fun _ => ElectionMsg.election st.nodeId) }, 0)

/-- `_become_leader`: state LEADER, leader := self, broadcast COORDINATOR. -/
def become_leader (st : LEState) : LEState :=
  { st with state := NodeState.leader, currentLeader := some st.nodeId,
            outbox := st.outbox ++ [ElectionMsg.coordinator st.nodeId] }

/-- `_wait_for_coordinator`: sleeps up to the election timeout and, if still
leaderless, re-triggers an election in a separate thread; it does not
change the election state itself. -/
def wait_for_coordinator (st : LEState) : LEState := st

/-- `_start_election` (lines 276-303). -/
def start_election (st : LEState) : LEState :=
  if st.electionInProgress then st
  else
    let st1 := { st with electionInProgress := true, state := NodeState.candidate }
    let higher := get_higher_nodes st1
    let st2 :=
      if higher.isEmpty then become_leader st1
      else
        let pr := send_election_messages st1 higher
        if pr.2 = 0 then become_leader pr.1 else wait_for_coordinator pr.1
    { st2 with electionInProgress := false }

/-- `_handle_coordinator_message` as reached through `_election_monitor`:
datagrams from the node's own IP are skipped; otherwise the announced
leader is adopted and the node returns to FOLLOWER. -/
def receiveCoordinator (st : LEState) (senderIp : String) (leaderId : NodeIdentifier) :
    LEState :=
  if senderIp = st.nodeId.ip then st
  else { st with currentLeader := some leaderId, state := NodeState.follower }

/-- Initial election state after `start()`: FOLLOWER, no leader, self in
the group view, no election running. -/
def initLE (self : NodeIdentifier) (view : List NodeIdentifier) : LEState :=
  ⟨self, NodeState.follower, none, view, false, []⟩

/-- Server A: lower process id (lower bully priority). -/
def nodeA : NodeIdentifier := ⟨"10.0.0.1", 5008, 1⟩

/-- Server B: higher process id (highest bully priority). -/
def nodeB : NodeIdentifier := ⟨"10.0.0.2", 5008, 2⟩

/-- A after its startup election (both servers in its view). -/
def stA1 : LEState := start_election (initLE nodeA [nodeA, nodeB])

/-- B after its startup election (both servers in its view). -/
def stB1 : LEState := start_election (initLE nodeB [nodeA, nodeB])

/-- A after receiving B's COORDINATOR announcement. -/
def stA2 : LEState := receiveCoordinator stA1 nodeB.ip nodeB

/-- B after receiving A's COORDINATOR announcement. -/
def stB2 : LEState := receiveCoordinator stB1 nodeA.ip nodeA

/-! ## `Client.py` — `attempt_reconnection`

```python
max_retries = 3
for attempt in range(max_retries):
    try:
        ... sendto(join_message) ...
        try:
            self.socket.settimeout(3)
            response, server_addr = self.socket.recvfrom(BUFFER_SIZE)
            ... return True
        except socket.timeout:
            continue                 # next attempt; skips the sleep below
    except Exception as e:
        ...                          # falls through to the sleep
    time.sleep(2)
return False
```

Each attempt has one of three network outcomes, abstracted by an oracle
over the attempt number (counting from 0): the server responds within the
3 s receive timeout (`return True`); the receive times out (`continue`,
which skips `time.sleep(2)`); or some other exception is raised (e.g. the
send fails), which falls through to `time.sleep(2)` before the next
attempt.  The trace records whether reconnection succeeded, how many
attempts were made, and the executed `time.sleep` durations. -/

/-- The outcome of one reconnection attempt. -/
inductive AttemptOutcome where
  | response
  | timedOut
  | sendError
deriving Repr, DecidableEq

/-- Result trace of `attempt_reconnection`. -/
structure ReconnectTrace where
  success : Bool
  attempts : Nat
  delays : List Nat
deriving Repr, DecidableEq

/-- `max_retries = 3` in `attempt_reconnection`. -/
def reconnectMaxRetries : Nat := 3

/-- The `for attempt in range(max_retries)` loop: `n` attempts remain,
`a` attempts were made, `ds` are the executed sleeps so far.  A timed-out
attempt `continue`s, skipping the sleep; only a non-timeout exception
reaches `time.sleep(2)`. -/
def attemptLoop (outcome : Nat → AttemptOutcome) : Nat → Nat → List Nat → ReconnectTrace
  | 0, a, ds => ⟨false, a, ds⟩
  | n + 1, a, ds =>
      match outcome a with
      | AttemptOutcome.response => ⟨true, a + 1, ds⟩
      | AttemptOutcome.timedOut => attemptLoop outcome n (a + 1) ds
      | AttemptOutcome.sendError => attemptLoop outcome n (a + 1) (ds ++ [2])

/-- `ChatClient.attempt_reconnection` (lines 156-190). -/
def attempt_reconnection (outcome : Nat → AttemptOutcome) : ReconnectTrace :=
  attemptLoop outcome reconnectMaxRetries 0 []

/-- FIPS 180-4 test vector: SHA-256("abc"). -/
theorem sha256_abc :
    sha256 [97, 98, 99] =
      [0xba, 0x78, 0x16, 0xbf, 0x8f, 0x01, 0xcf, 0xea,
       0x41, 0x41, 0x40, 0xde, 0x5d, 0xae, 0x22, 0x23,
       0xb0, 0x03, 0x61, 0xa3, 0x96, 0x17, 0x7a, 0x9c,
       0xb4, 0x10, 0xff, 0x61, 0xf2, 0x00, 0x15, 0xad] := by
  decide

/-- The digest always has 32 bytes. -/
theorem sha256_length (msg : List Nat) : (sha256 msg).length = 32 := by
  simp [sha256, digestBytes, wordToBytes4]

/-- Parsing the first 8 hex digits of a byte list's hex rendering gives the
big-endian value of its first 4 bytes. -/
theorem hexVal_take8 (l : List Nat) (h4 : 4 ≤ l.length) :
    hexVal ((hexDigits l).take 8) = beBytes (l.take 4) := by
  match l with
  | b0 :: b1 :: b2 :: b3 :: t =>
      simp [hexDigits, hexVal, beBytes, List.flatMap_cons, List.take_succ_cons, List.foldl]
      omega
  | [] => simp at h4
  | [_] => simp at h4
  | [_, _] => simp at h4
  | [_, _, _] => simp at h4

/-- C3: For every IP string and hostname, `generate_server_id` returns the
integer value of the first 4 bytes (8 hex digits) of
`SHA-256(ip ++ ":" ++ hostname)` modulo 10 000; it is deterministic (it is a
pure function of its byte-list arguments) and its result lies in
`[0, 9999]`. -/
theorem generate_server_id_spec (ip hostname : List Nat) :
    generate_server_id ip hostname = specPeerId ip hostname ∧
    generate_server_id ip hostname < 10000 := by
  constructor
  · rw [generate_server_id, specPeerId, hexVal_take8]
    rw [sha256_length]
    omega
  · exact Nat.mod_lt _ (by norm_num)

/-- C4: Reliable delivery is idempotent.  (a) For every envelope whose
msg_id is already in the delivered set, handling it again appends one ACK,
delivers nothing upstream, and leaves the delivered set (and every other
field) unchanged.  (b) Handling an identical, integrity-valid, fresh
envelope twice delivers upstream exactly on the first call and emits two
ACKs, while the delivered set gains the msg_id once. -/
theorem handleReliable_idempotent (st : RMState) (m : ReliableMessage) :
    (m.msgId ∈ st.receivedMessages →
      handle_reliable_message st m =
        ({ st with acksSent := st.acksSent ++ [m.msgId] }, none)) ∧
    (m.msgId ∉ st.receivedMessages → verify_integrity m = true →
      (handle_reliable_message st m).2 = some m ∧
      (handle_reliable_message (handle_reliable_message st m).1 m).2 = none ∧
      (handle_reliable_message (handle_reliable_message st m).1 m).1.acksSent =
        st.acksSent ++ [m.msgId] ++ [m.msgId] ∧
      (handle_reliable_message (handle_reliable_message st m).1 m).1.receivedMessages =
        st.receivedMessages ++ [m.msgId]) := by
  constructor
  · intro h
    simp [handle_reliable_message, h]
  · intro h1 h2
    have e1 : handle_reliable_message st m =
        ({ st with receivedMessages := st.receivedMessages ++ [m.msgId],
                   acksSent := st.acksSent ++ [m.msgId] }, some m) := by
      simp [handle_reliable_message, h1, h2]
    rw [e1]
    refine ⟨rfl, ?_, ?_, ?_⟩ <;> simp [handle_reliable_message]

/-- C4 witness: evaluating the theorem on the concrete envelope `mIntact`
from the empty receiver state. -/
theorem handleReliable_idempotent_witness :
    (handle_reliable_message ⟨[], 0, []⟩ mIntact).2 = some mIntact ∧
    (handle_reliable_message (handle_reliable_message ⟨[], 0, []⟩ mIntact).1 mIntact).2 = none ∧
    (handle_reliable_message (handle_reliable_message ⟨[], 0, []⟩ mIntact).1 mIntact).1.acksSent =
      [] ++ [mIntact.msgId] ++ [mIntact.msgId] ∧
    (handle_reliable_message (handle_reliable_message ⟨[], 0, []⟩ mIntact).1 mIntact).1.receivedMessages =
      [] ++ [mIntact.msgId] :=
  (handleReliable_idempotent ⟨[], 0, []⟩ mIntact).2 (by decide) (by decide)

/-- C5: A fresh envelope whose stored checksum differs from the recomputed
one increments the BYZANTINE counter by one, sends no ACK, does not enter
the delivered set, and is not delivered upstream (the handler returns the
state with only the counter bumped, and `none`). -/
theorem handleReliable_corrupt (st : RMState) (m : ReliableMessage)
    (h1 : m.msgId ∉ st.receivedMessages) (h2 : verify_integrity m = false) :
    handle_reliable_message st m =
      ({ st with byzantineCount := st.byzantineCount + 1 }, none) := by
  simp [handle_reliable_message, h1, h2]

/-- C5 witness: the corrupted envelope `mCorrupt` on the empty state. -/
theorem handleReliable_corrupt_witness :
    handle_reliable_message ⟨[], 0, []⟩ mCorrupt = (⟨[], 1, []⟩, none) :=
  handleReliable_corrupt ⟨[], 0, []⟩ mCorrupt (by decide) (by decide)

/-- C10: The duplicate branch runs before the integrity check: a replayed
envelope whose checksum is corrupted still elicits an ACK, does not touch
the BYZANTINE counter, and is never delivered upstream. -/
theorem handleReliable_duplicate_skips_integrity (st : RMState) (m : ReliableMessage)
    (h1 : m.msgId ∈ st.receivedMessages) (h2 : verify_integrity m = false) :
    handle_reliable_message st m =
      ({ st with acksSent := st.acksSent ++ [m.msgId] }, none) := by
  simp [handle_reliable_message, h1]

/-- C10 witness: replaying `mCorrupt` when its msg_id is already delivered. -/
theorem handleReliable_duplicate_skips_integrity_witness :
    handle_reliable_message ⟨[2], 5, []⟩ mCorrupt = (⟨[2], 5, [2]⟩, none) :=
  handleReliable_duplicate_skips_integrity ⟨[2], 5, []⟩ mCorrupt (by decide) (by decide)

/-- Helper for C8: a scan never produces a retry count above 3 (given every
pending message was created with `max_retries = 3` and respects the bound). -/
theorem scan_retry_le (now : Nat) (pending : List ReliableMessage)
    (h : ∀ m ∈ pending, m.maxRetries = 3 ∧ m.retryCount ≤ 3) :
    ∀ m ∈ (message_timeout_scan now pending).1, m.maxRetries = 3 ∧ m.retryCount ≤ 3 := by
  intro m hm
  simp only [message_timeout_scan, List.mem_filterMap] at hm
  obtain ⟨a, ha, hstep⟩ := hm
  obtain ⟨hmax, hle⟩ := h a ha
  unfold stepMessage at hstep
  by_cases hexp : messageTimeout < now - a.timestamp
  · by_cases hr : a.retryCount < a.maxRetries
    · rw [if_pos hexp, if_pos hr] at hstep
      simp only [Option.some.injEq] at hstep
      subst hstep
      refine ⟨hmax, ?_⟩
      show a.retryCount + 1 ≤ 3
      omega
    · rw [if_pos hexp, if_neg hr] at hstep
      simp at hstep
  · rw [if_neg hexp] at hstep
    simp only [Option.some.injEq] at hstep
    subst hstep
    exact ⟨hmax, hle⟩

/-- Helper for C8: the OMISSION increment of one scan equals the number of
expired pending messages whose retries are exhausted. -/
theorem scan_omission_count (now : Nat) (pending : List ReliableMessage)
    (h : ∀ m ∈ pending, m.maxRetries = 3 ∧ m.retryCount ≤ 3) :
    (message_timeout_scan now pending).2 =
      pending.countP (fun m => decide (messageTimeout < now - m.timestamp ∧ 3 ≤ m.retryCount)) := by
  induction pending with
  | nil => rfl
  | cons a t ih =>
      have iht := ih (fun m hm => h m (List.mem_cons_of_mem a hm))
      obtain ⟨hmax, _⟩ := h a (List.mem_cons_self a t)
      simp only [message_timeout_scan] at iht
      simp only [message_timeout_scan, List.map_cons, List.sum_cons, List.countP_cons]
      rw [iht]
      by_cases hexp : messageTimeout < now - a.timestamp
      · by_cases hr : 3 ≤ a.retryCount
        · have hfa : (stepMessage now a).2 = 1 := by
            unfold stepMessage
            rw [if_pos hexp, if_neg (by rw [hmax]; omega)]
          rw [hfa, if_pos (by simp [hexp, hr])]
          omega
        · have hfa : (stepMessage now a).2 = 0 := by
            unfold stepMessage
            rw [if_pos hexp, if_pos (by rw [hmax]; omega)]
          rw [hfa, if_neg (by simp [hexp]; omega)]
          omega
      · have hfa : (stepMessage now a).2 = 0 := by
          unfold stepMessage
          rw [if_neg hexp]
        rw [hfa, if_neg (by simp [hexp])]
        omega

/-- C8: a pending reliable message is never retransmitted more than 3
times.  Given that every pending message has `max_retries = 3` and
`retry_count ≤ 3` (true of every message the constructor creates), a
timeout scan (a) preserves the bound `retry_count ≤ 3`, (b) retransmits an
expired message — bumping its counter and refreshing its timestamp — only
while `retry_count < 3`, (c) drops an expired message with exhausted
retries from the pending map, and (d) increments the OMISSION counter by
exactly the number of dropped messages. -/
theorem message_timeout_retry_bound (now : Nat) (pending : List ReliableMessage)
    (h : ∀ m ∈ pending, m.maxRetries = 3 ∧ m.retryCount ≤ 3) :
    (∀ m ∈ (message_timeout_scan now pending).1, m.maxRetries = 3 ∧ m.retryCount ≤ 3) ∧
    (∀ m ∈ pending, messageTimeout < now - m.timestamp → m.retryCount < 3 →
      (stepMessage now m).1 = some { m with retryCount := m.retryCount + 1, timestamp := now }) ∧
    (∀ m ∈ pending, messageTimeout < now - m.timestamp → 3 ≤ m.retryCount →
      (stepMessage now m).1 = none) ∧
    (message_timeout_scan now pending).2 =
      pending.countP (fun m => decide (messageTimeout < now - m.timestamp ∧ 3 ≤ m.retryCount)) := by
  refine ⟨scan_retry_le now pending h, ?_, ?_, scan_omission_count now pending h⟩
  · intro m hm hexp hlt
    have hmax := (h m hm).1
    unfold stepMessage
    rw [if_pos hexp, if_pos (by rw [hmax]; omega)]
  · intro m hm hexp hge
    have hmax := (h m hm).1
    unfold stepMessage
    rw [if_pos hexp, if_neg (by rw [hmax]; omega)]

/-- C8 witness: at time 10, the fresh message (sent at 0, no retries yet)
is retransmitted and the exhausted one is dropped, for one OMISSION. -/
theorem message_timeout_retry_bound_witness :
    (message_timeout_scan 10 [mPendFresh, mPendSpent]).2 =
      ([mPendFresh, mPendSpent]).countP
        (fun m => decide (messageTimeout < 10 - m.timestamp ∧ 3 ≤ m.retryCount)) :=
  (message_timeout_retry_bound 10 [mPendFresh, mPendSpent] (by decide)).2.2.2

/-- C6 counterexample: with partition detection enabled, one known node and
no node reachable, the code sets `in_partition = true`, but the claim's
formula `|reachable| < ⌈|known|/2⌉ ∧ |known| ≥ 2` is false (|known| = 1),
so the claimed "if and only if" fails at this input. -/
theorem probeNodes_claim_counterexample :
    ¬ (((probe_nodes ⟨[7], [], false, true, 0, none⟩ 100 (fun _ => false)).1.inPartition = true) ↔
       ((probe_nodes ⟨[7], [], false, true, 0, none⟩ 100 (fun _ => false)).1.reachableNodes.length <
          (((probe_nodes ⟨[7], [], false, true, 0, none⟩ 100
              (fun _ => false)).1.knownNodes.length + 1) / 2) ∧
        2 ≤ (probe_nodes ⟨[7], [], false, true, 0, none⟩ 100
              (fun _ => false)).1.knownNodes.length)) := by
  decide

/-- C6 (amended): after a probe round that runs with partition detection
enabled, the node is declared in partition if and only if the number of
reachable known nodes is strictly less than `⌈|known|/2⌉` and `|known| ≥ 1`
(not `≥ 2`); in particular a node that knows zero other servers is never
considered partitioned. -/
theorem probeNodes_partition_criterion (st : PartitionDetector) (now : Nat)
    (reach : Nat → Bool) (h : st.detectionEnabled = true) :
    ((probe_nodes st now reach).1.inPartition = true ↔
      ((st.knownNodes.filter reach).length < (st.knownNodes.length + 1) / 2 ∧
       1 ≤ st.knownNodes.length)) := by
  by_cases hk : st.knownNodes.length = 0
  · simp [probe_nodes, h, hk]
  · simp only [probe_nodes, h, hk]
    simp only [Bool.not_eq_true, decide_eq_true_eq, if_false]
    simp [hk]
    omega

/-- C6 witness: two known nodes, one reachable: `2 * 1 < 2` is false, so the
round reports no partition, matching `1 < ⌈2/2⌉ ∧ 2 ≥ 1` being false. -/
theorem probeNodes_partition_criterion_witness :
    ((probe_nodes ⟨[3, 7], [], false, true, 0, none⟩ 50
        (fun n => n = 3)).1.inPartition = true ↔
      ((([3, 7] : List Nat).filter (fun n => n = 3)).length <
          ((([3, 7] : List Nat).length + 1) / 2) ∧
       1 ≤ ([3, 7] : List Nat).length)) :=
  probeNodes_partition_criterion ⟨[3, 7], [], false, true, 0, none⟩ 50 (fun n => n = 3) rfl

/-- Helper for C7: a single probe round inside the startup grace window
returns "connected" without probing, keeps `in_partition = false`, and
leaves detection disabled. -/
theorem probeNodes_grace_step (st : PartitionDetector) (now : Nat) (reach : Nat → Bool)
    (h1 : st.detectionEnabled = false) (h2 : now - st.startupTime < startupGracePeriod) :
    probe_nodes st now reach = ({ st with reachableNodes := [], inPartition := false }, true) := by
  simp [probe_nodes, h1, h2]

/-- Helper for C7: any sequence of probe rounds whose times all lie inside
the grace window preserves `in_partition = false`, keeps detection
disabled, and leaves the startup time unchanged. -/
theorem probeNodes_grace_fold (rounds : List (Nat × (Nat → Bool))) :
    ∀ st : PartitionDetector, st.detectionEnabled = false → st.inPartition = false →
      (∀ p ∈ rounds, p.1 - st.startupTime < startupGracePeriod) →
      ((rounds.foldl (fun s p => (probe_nodes s p.1 p.2).1) st).inPartition = false ∧
       (rounds.foldl (fun s p => (probe_nodes s p.1 p.2).1) st).detectionEnabled = false ∧
       (rounds.foldl (fun s p => (probe_nodes s p.1 p.2).1) st).startupTime = st.startupTime) := by
  induction rounds with
  | nil => intro st h1 h0 _; exact ⟨h0, h1, rfl⟩
  | cons p ps ih =>
      intro st h1 h0 h3
      rw [List.foldl_cons, probeNodes_grace_step st p.1 p.2 h1 (h3 p (List.mem_cons_self p ps))]
      exact ih _ h1 rfl (fun q hq => h3 q (List.mem_cons_of_mem p hq))

/-- C7: during the startup grace period (probe times with
`now − startup_time < 30`), every probe round returns connected without
probing and keeps the partition flag false; consequently a node whose probe
rounds all fall inside the grace window has `in_partition = false`
throughout. -/
theorem partition_grace (st : PartitionDetector) (now : Nat) (reach : Nat → Bool)
    (rounds : List (Nat × (Nat → Bool)))
    (h0 : st.inPartition = false) (h1 : st.detectionEnabled = false)
    (h2 : now - st.startupTime < startupGracePeriod)
    (h3 : ∀ p ∈ rounds, p.1 - st.startupTime < startupGracePeriod) :
    probe_nodes st now reach = ({ st with reachableNodes := [], inPartition := false }, true) ∧
    (rounds.foldl (fun s p => (probe_nodes s p.1 p.2).1) st).inPartition = false ∧
    (rounds.foldl (fun s p => (probe_nodes s p.1 p.2).1) st).detectionEnabled = false := by
  refine ⟨probeNodes_grace_step st now reach h1 h2, ?_, ?_⟩
  · exact (probeNodes_grace_fold rounds st h1 h0 h3).1
  · exact (probeNodes_grace_fold rounds st h1 h0 h3).2.1

/-- C7 witness: a freshly booted detector (startup time 0) probed at times
5, 12 and 29, all inside the 30 s grace window. -/
theorem partition_grace_witness :
    probe_nodes ⟨[4], [], false, false, 0, none⟩ 5 (fun _ => false) =
      (⟨[4], [], false, false, 0, none⟩, true) ∧
    (([(12, fun _ => false), (29, fun _ => true)] :
        List (Nat × (Nat → Bool))).foldl (fun s p => (probe_nodes s p.1 p.2).1)
        ⟨[4], [], false, false, 0, none⟩).inPartition = false ∧
    (([(12, fun _ => false), (29, fun _ => true)] :
        List (Nat × (Nat → Bool))).foldl (fun s p => (probe_nodes s p.1 p.2).1)
        ⟨[4], [], false, false, 0, none⟩).detectionEnabled = false :=
  partition_grace ⟨[4], [], false, false, 0, none⟩ 5 (fun _ => false)
    [(12, fun _ => false), (29, fun _ => true)] rfl rfl (by decide)
    (by intro p hp; fin_cases hp <;> decide)

/-- C2: starting an election (with none already in progress) makes the node
LEADER — with `current_leader = self` and a COORDINATOR broadcast in its
outbox — both when the group view holds no higher-priority member and when
it does, because `_send_election_messages` reports 0 responses (its
`responses` counter is never incremented), so the "no OK arrived" branch
always fires. -/
theorem start_election_becomes_leader (st : LEState) (h0 : st.electionInProgress = false) :
    (start_election st).state = NodeState.leader ∧
    (start_election st).currentLeader = some st.nodeId ∧
    ElectionMsg.coordinator st.nodeId ∈ (start_election st).outbox ∧
    (∀ targets, (send_election_messages st targets).2 = 0) := by
  refine ⟨?_, ?_, ?_, fun _ => rfl⟩ <;>
    (simp only [start_election]
     rw [if_neg (by simp [h0])]
     split <;> simp_all [become_leader, send_election_messages])

/-- C2 witness: node A, with the higher-priority node B in its view and no
election in progress, still ends the election as LEADER announcing itself. -/
theorem start_election_becomes_leader_witness :
    stA1.state = NodeState.leader ∧
    stA1.currentLeader = some nodeA ∧
    ElectionMsg.coordinator nodeA ∈ stA1.outbox ∧
    (∀ targets, (send_election_messages (initLE nodeA [nodeA, nodeB]) targets).2 = 0) :=
  start_election_becomes_leader (initLE nodeA [nodeA, nodeB]) rfl

/-- C1 (code bug): in the two-server run where both nodes execute their
startup election and then each processes the other's COORDINATOR
announcement, both first become LEADER (because `_send_election_messages`
always returns 0 responses) and both then demote to FOLLOWER, node B —
the highest-priority peer — ending with `current_leader = A`.  So after the
exchange no node is in state LEADER and the nodes do not agree on the
highest PeerId: the claimed "exactly one LEADER, named by every other node"
fails. -/
theorem election_no_single_leader :
    stA1.state = NodeState.leader ∧
    stB1.state = NodeState.leader ∧
    stA2.state = NodeState.follower ∧
    stB2.state = NodeState.follower ∧
    stA2.currentLeader = some nodeB ∧
    stB2.currentLeader = some nodeA ∧
    ([stA2, stB2].countP (fun s => decide (s.state = NodeState.leader)) = 0) ∧
    ¬ ([stA2, stB2].countP (fun s => decide (s.state = NodeState.leader)) = 1) ∧
    (∀ st targets, (send_election_messages st targets).2 = 0) := by
  refine ⟨?_, ?_, ?_, ?_, ?_, ?_, ?_, ?_, fun _ _ => rfl⟩ <;> decide

/-- Helper for C9: the reconnection loop makes at most `a + n` attempts and
any sleep it executes is 2 s (given the sleeps so far are 2 s). -/
theorem attemptLoop_bound (outcome : Nat → AttemptOutcome) :
    ∀ (n a : Nat) (ds : List Nat),
      (attemptLoop outcome n a ds).attempts ≤ a + n ∧
      (∀ d ∈ (attemptLoop outcome n a ds).delays, d = 2 ∨ d ∈ ds) := by
  intro n
  induction n with
  | zero =>
      intro a ds
      exact ⟨Nat.le_refl a, fun d hd => Or.inr hd⟩
  | succ n ih =>
      intro a ds
      unfold attemptLoop
      cases hout : outcome a with
      | response =>
          refine ⟨?_, fun d hd => Or.inr hd⟩
          show a + 1 ≤ a + (n + 1)
          omega
      | timedOut =>
          obtain ⟨hatt, hdel⟩ := ih (a + 1) ds
          refine ⟨?_, hdel⟩
          show (attemptLoop outcome n (a + 1) ds).attempts ≤ a + (n + 1)
          omega
      | sendError =>
          obtain ⟨hatt, hdel⟩ := ih (a + 1) (ds ++ [2])
          refine ⟨?_, fun d hd => ?_⟩
          · show (attemptLoop outcome n (a + 1) (ds ++ [2])).attempts ≤ a + (n + 1)
            omega
          · rcases hdel d hd with h2 | hmem
            · exact Or.inl h2
            · rcases List.mem_append.mp hmem with hds | h2
              · exact Or.inr hds
              · exact Or.inl (List.mem_singleton.mp h2)

/-- C9 counterexample: when every reconnection attempt times out waiting
for a response — the plain "server gone silent" run — the client makes
exactly 3 attempts (not 5) and, because the timeout handler `continue`s
past `time.sleep(2)`, executes no sleep at all, so the attempts are not
separated by any backoff, let alone an exponential `2^attempt` one; and
even when every attempt fails with a send error, the sleeps are the fixed
`[2, 2, 2]`, not an exponential schedule. -/
theorem attempt_reconnection_claim_counterexample :
    (attempt_reconnection (fun _ => AttemptOutcome.timedOut)).attempts = 3 ∧
    (attempt_reconnection (fun _ => AttemptOutcome.timedOut)).delays = [] ∧
    (attempt_reconnection (fun _ => AttemptOutcome.timedOut)).success = false ∧
    ¬ ((attempt_reconnection (fun _ => AttemptOutcome.timedOut)).attempts = 5) ∧
    ¬ ((attempt_reconnection (fun _ => AttemptOutcome.timedOut)).delays =
        (List.range 3).map fun k => 2 ^ k) ∧
    (attempt_reconnection (fun _ => AttemptOutcome.sendError)).delays = [2, 2, 2] ∧
    ¬ ((attempt_reconnection (fun _ => AttemptOutcome.sendError)).delays =
        (List.range 3).map fun k => 2 ^ k) ∧
    ¬ ((attempt_reconnection (fun _ => AttemptOutcome.sendError)).delays =
        (List.range 3).map fun k => 2 ^ (k + 1)) := by
  decide

/-- C9 (amended): on losing contact with the server, the client performs at
most 3 reconnection attempts before reporting failure; attempts that time
out waiting for a response are retried immediately (the timeout handler
skips the sleep), and only an attempt that fails with a send error is
followed by a fixed 2-second delay.  In particular, when every attempt
times out the client makes exactly 3 attempts with no sleeps and reports
failure, and when every attempt hits a send error it makes exactly 3
attempts with 2-second sleeps. -/
theorem attempt_reconnection_fixed_backoff (outcome : Nat → AttemptOutcome) :
    (attempt_reconnection outcome).attempts ≤ 3 ∧
    (∀ d ∈ (attempt_reconnection outcome).delays, d = 2) ∧
    ((∀ k, outcome k = AttemptOutcome.timedOut) →
      attempt_reconnection outcome = ⟨false, 3, []⟩) ∧
    ((∀ k, outcome k = AttemptOutcome.sendError) →
      attempt_reconnection outcome = ⟨false, 3, [2, 2, 2]⟩) := by
  obtain ⟨hatt, hdel⟩ := attemptLoop_bound outcome reconnectMaxRetries 0 []
  refine ⟨hatt, fun d hd => ?_, fun hto => ?_, fun herr => ?_⟩
  · rcases hdel d hd with h2 | hmem
    · exact h2
    · simp at hmem
  · simp [attempt_reconnection, reconnectMaxRetries, attemptLoop, hto]
  · simp [attempt_reconnection, reconnectMaxRetries, attemptLoop, herr]

/-- C9 witness: the all-timed-out oracle (server gone silent). -/
theorem attempt_reconnection_fixed_backoff_witness :
    attempt_reconnection (fun _ => AttemptOutcome.timedOut) = ⟨false, 3, []⟩ :=
  (attempt_reconnection_fixed_backoff (fun _ => AttemptOutcome.timedOut)).2.2.1
    (fun _ => rfl)

end Chat
